import Mathlib

/-!
# markdown_preview: the command-line tool of `main.go`

A shallow embedding of `main.go`.  The program is sequential glue around the
operating system and three libraries, so the embedding passes an explicit
`World` (files, the output writer, standard error and a trace of the calls
made to the outside) through every function, and takes what the source does
not contain as parameters:

* `Host`: the operating system (`runtime.GOOS`, which calls of `os` and
  `os/exec` fail and how);
* `Libs`: `blackfriday.Run`, `bluemonday.UGCPolicy().SanitizeBytes` and the
  template engine of `html/template`.

Go byte slices and strings that hold file contents are lists of characters
(`Bytes`); the program never looks inside them, only the libraries do.
-/

namespace Mdp

/-- File contents, HTML and template text: what Go holds in a byte slice. -/
abbrev Bytes := List Char

/-- A Go error value, by its message. -/
abbrev Err := String

/-! ## Data model -/

/-- The constant `defaultTemplate` of `main.go`, character for character. -/
def defaultTemplate : Bytes :=
  "<!DOCTYPE html>\n<html>\n  <head>\n    <meta http-equiv=\"content-type\" content=\"text/html; charset=utf-8\">\n    <title>\x7b\x7b .Title \x7d\x7d</title>\n  </head>\n  <body>\n\x7b\x7b .Body \x7d\x7d\n  </body>\n</html>\n".toList

/-- The record `content` handed to the template: `Title` is a plain string,
`Body` has the type `template.HTML`. -/
structure content where
  Title : String
  Body : Bytes

/-- A parsed template, seen through the one thing `main.go` does with it:
`Execute` on a `content`, giving the rendered bytes or an error. -/
abbrev Template := content → Except Err Bytes

/-- One call to the outside of the process, as recorded in `World.trace`. -/
inductive Event where
  | readFile (path : String)
  | createTemp (path : String)
  | closeFile (path : String)
  | writeFile (path : String) (data : Bytes)
  | remove (path : String)
  | lookPath (name : String)
  | command (path : String) (args : List String)
  | sleep (seconds : Nat)
  | usage
deriving DecidableEq, Repr

/-- What the program can observe and change: the files by path, the bytes
received by the writer `out`, the bytes received by standard error, and the
calls made so far, oldest first. -/
structure World where
  fs : String → Option Bytes
  out : Bytes
  errOut : Bytes
  trace : List Event

/-- Appends one event to the trace. -/
def World.log (w : World) (e : Event) : World :=
  { w with trace := w.trace ++ [e] }

/-- How a failing `os.WriteFile` fails: at `OpenFile`, before the file is
touched, or later, after the file was truncated and `n` bytes reached it. -/
inductive WriteFault where
  | atOpen (e : Err)
  | afterBytes (n : Nat) (e : Err)
deriving DecidableEq, Repr

/-- The operating system, as far as `main.go` consults it. -/
structure Host where
  /-- The value of `runtime.GOOS`. -/
  goos : String
  /-- The error of reading an existing file, if reading it fails. -/
  readErr : String → Option Err
  /-- The value of `os.TempDir()`. -/
  tempDir : String
  /-- The random strings `os.CreateTemp` draws, in order. -/
  randoms : List String
  /-- The error of creating a file that does not exist yet, if that fails. -/
  createErr : String → Option Err
  /-- The error of `Close` on the new temporary file, if it fails. -/
  closeErr : String → Option Err
  /-- The fault of `os.WriteFile` for a path and data, if it fails. -/
  writeFault : String → Bytes → Option WriteFault
  /-- The error of `os.Remove`, if it fails. -/
  removeErr : String → Option Err
  /-- The result of `exec.LookPath`. -/
  lookPath : String → Except Err String
  /-- The error of running a command to its end, if it fails. -/
  runErr : String → List String → Option Err

/-- The libraries `main.go` imports and calls on file contents. -/
structure Libs where
  /-- The function `blackfriday.Run`. -/
  markdown : Bytes → Bytes
  /-- The function `bluemonday.UGCPolicy().SanitizeBytes`. -/
  sanitize : Bytes → Bytes
  /-- The parser of `html/template`, from template text to a template. -/
  parseTemplate : Bytes → Except Err Template

/-! ## The calls of package `os` -/

/-- The call `os.ReadFile`: the whole contents of an existing file. -/
def readFile (H : Host) (w : World) (path : String) : Except Err Bytes × World :=
  let w1 := w.log (.readFile path)
  match w.fs path with
  | none => (.error ("open " ++ path ++ ": no such file or directory"), w1)
  | some data =>
    match H.readErr path with
    | some e => (.error e, w1)
    | none => (.ok data, w1)

/-- The path `os.CreateTemp` tries for one random string, with the pattern
`markdown_preview*.html` in the default directory. -/
def tempName (H : Host) (r : String) : String :=
  H.tempDir ++ "/" ++ "markdown_preview" ++ r ++ ".html"

/-- The loop of `os.CreateTemp`: the first path that does not exist yet is
created (exclusively); a path that exists is skipped. -/
def createTempLoop (H : Host) (w : World) : List String → Except Err String
  | [] => .error "createtemp: file exists"
  | r :: rs =>
    match w.fs (tempName H r) with
    | some _ => createTempLoop H w rs
    | none =>
      match H.createErr (tempName H r) with
      | some e => .error e
      | none => .ok (tempName H r)

/-- The call `os.CreateTemp("", "markdown_preview*.html")`: at most 10000
paths are tried; on success the new file is empty. The open file is
represented by its path, which is what `temp.Name()` returns. -/
def createTemp (H : Host) (w : World) : Except Err String × World :=
  match createTempLoop H w (H.randoms.take 10000) with
  | .error e => (.error e, w)
  | .ok name =>
    (.ok name,
      { w with
        fs := fun q => if q = name then some [] else w.fs q
        trace := w.trace ++ [.createTemp name] })

/-- The call `temp.Close()`. -/
def closeFile (H : Host) (w : World) (name : String) : Option Err × World :=
  (H.closeErr name, w.log (.closeFile name))

/-- The call `fmt.Fprintln(out, s)`: the string and a newline. -/
def fprintln (w : World) (s : String) : World :=
  { w with out := w.out ++ s.toList ++ ['\n'] }

/-- The call `os.WriteFile(path, data, 0644)`: the file is opened with
truncation and `data` is written to it. -/
def writeFile (H : Host) (w : World) (path : String) (data : Bytes) : Option Err × World :=
  let w1 := w.log (.writeFile path data)
  match H.writeFault path data with
  | none => (none, { w1 with fs := fun q => if q = path then some data else w.fs q })
  | some (.atOpen e) => (some e, w1)
  | some (.afterBytes n e) =>
    (some e, { w1 with fs := fun q => if q = path then some (data.take n) else w.fs q })

/-- The call `os.Remove(path)`. -/
def remove (H : Host) (w : World) (path : String) : Option Err × World :=
  let w1 := w.log (.remove path)
  match H.removeErr path with
  | some e => (some e, w1)
  | none =>
    match w.fs path with
    | none => (some ("remove " ++ path ++ ": no such file or directory"), w1)
    | some _ => (none, { w1 with fs := fun q => if q = path then none else w.fs q })

/-! ## The functions of `main.go` -/

/-- The call `template.ParseFiles(tFname)`: read the file, parse its text. -/
def parseFiles (L : Libs) (H : Host) (w : World) (tFname : String) :
    Except Err Template × World :=
  match readFile H w tFname with
  | (.error e, w1) => (.error e, w1)
  | (.ok text, w1) => (L.parseTemplate text, w1)

/-- The function `parseContent` of `main.go`. -/
def parseContent (L : Libs) (H : Host) (w : World) (input : Bytes) (tFname : String) :
    Except Err Bytes × World :=
  let output := L.markdown input
  let body := L.sanitize output
  match L.parseTemplate defaultTemplate with
  | .error e => (.error e, w)
  | .ok t0 =>
    match (if tFname ≠ "" then parseFiles L H w tFname else (.ok t0, w)) with
    | (.error e, w1) => (.error e, w1)
    | (.ok t, w1) =>
      let c : content := { Title := "Markdown Preview Tool", Body := body }
      match t c with
      | .error e => (.error e, w1)
      | .ok buffer => (.ok buffer, w1)

/-- The function `saveHTML` of `main.go`. -/
def saveHTML (H : Host) (w : World) (outFname : String) (data : Bytes) : Option Err × World :=
  writeFile H w outFname data

/-- The function `preview` of `main.go`. -/
def preview (H : Host) (w : World) (fname : String) : Option Err × World :=
  let choice : Option (String × List String) :=
    if H.goos = "linux" then some ("xdg-open", [])
    else if H.goos = "windows" then some ("cmd.exe", ["/C", "start"])
    else if H.goos = "darwin" then some ("open", [])
    else none
  match choice with
  | none => (some "OS not supported", w)
  | some (cName, cParams0) =>
    let cParams := cParams0 ++ [fname]
    let w1 := w.log (.lookPath cName)
    match H.lookPath cName with
    | .error e => (some e, w1)
    | .ok cPath =>
      let err := H.runErr cPath cParams
      let w2 := w1.log (.command cPath cParams)
      let w3 := w2.log (.sleep 2)
      (err, w3)

/-- The function `run` of `main.go`. The deferred `os.Remove` is registered
before `preview` is called, so it runs when `run` returns with the result of
`preview`, whatever that result is. -/
def run (L : Libs) (H : Host) (w : World) (filename tFname : String) (skipPreview : Bool) :
    Option Err × World :=
  match readFile H w filename with
  | (.error e, w1) => (some e, w1)
  | (.ok input, w1) =>
    match parseContent L H w1 input tFname with
    | (.error e, w2) => (some e, w2)
    | (.ok htmlData, w2) =>
      match createTemp H w2 with
      | (.error e, w3) => (some e, w3)
      | (.ok temp, w3) =>
        match closeFile H w3 temp with
        | (some e, w4) => (some e, w4)
        | (none, w4) =>
          let outName := temp
          let w5 := fprintln w4 outName
          match saveHTML H w5 outName htmlData with
          | (some e, w6) => (some e, w6)
          | (none, w6) =>
            if skipPreview then (none, w6)
            else
              let r := preview H w6 outName
              let d := remove H r.2 outName
              (r.1, d.2)

/-- The function `main` of `main.go`, from the parsed flag values to the exit
code of the process. -/
def main (L : Libs) (H : Host) (w : World) (filename : String) (skipPreview : Bool)
    (tFname : String) : Nat × World :=
  if filename = "" then (1, w.log .usage)
  else
    match run L H w filename tFname skipPreview with
    | (some e, w1) => (1, { w1 with errOut := w1.errOut ++ e.toList ++ ['\n'] })
    | (none, w1) => (0, w1)

/-! ## The template engine

`html/template` is a library, not part of `main.go`. The general results
below hold for every engine (`Libs.parseTemplate` is a parameter). Where a
statement needs to know what the engine does with a given template text, the
engine is `goTemplate`: the fragment of the template language that the
specification describes, text with substitution points. -/

/-- A piece of a parsed template: literal text, or a substitution point
naming a field of the data. -/
inductive Node where
  | text (s : Bytes)
  | field (name : Bytes)
deriving DecidableEq, Repr

/-- Splits at the first opening delimiter (two left braces): the text before
it and, if there is one, the text after it. -/
def untilOpen : Bytes → Bytes × Option Bytes
  | [] => ([], none)
  | [c] => ([c], none)
  | c :: d :: rest =>
    if c = '\x7b' ∧ d = '\x7b' then ([], some rest)
    else ((c :: (untilOpen (d :: rest)).1), (untilOpen (d :: rest)).2)

/-- Splits at the first closing delimiter (two right braces): the text of the
action and the text after it, or nothing when the action is never closed. -/
def untilClose : Bytes → Option (Bytes × Bytes)
  | [] => none
  | [_] => none
  | c :: d :: rest =>
    if c = '\x7d' ∧ d = '\x7d' then some ([], rest)
    else
      match untilClose (d :: rest) with
      | none => none
      | some (a, r) => some (c :: a, r)

/-- Blank characters inside an action. -/
def isBlank (c : Char) : Bool :=
  c = ' ' || c = '\t' || c = '\n' || c = '\r'

/-- Drops the blanks at both ends. -/
def trimBlanks (s : Bytes) : Bytes :=
  ((s.dropWhile isBlank).reverse.dropWhile isBlank).reverse

/-- The field an action refers to, when the action is a dot followed by an
identifier, such as `.Title`. -/
def fieldName (action : Bytes) : Option Bytes :=
  match trimBlanks action with
  | [] => none
  | c :: name =>
    if c = '.' ∧ name ≠ [] ∧ name.all (fun x => x.isAlphanum || x = '_') then some name
    else none

/-- Parses template text into nodes; `fuel` bounds the number of actions. An
action that is never closed is a parse error, as in Go. An action that is not
a field reference lies outside the fragment and is refused. -/
def parseNodes : Nat → Bytes → Except Err (List Node)
  | 0, _ => .error "template: too many actions"
  | fuel + 1, s =>
    match untilOpen s with
    | (t, none) => .ok [.text t]
    | (t, some rest) =>
      match untilClose rest with
      | none => .error "template: unclosed action"
      | some (action, rest') =>
        match fieldName action with
        | none => .error "template: action outside the fragment"
        | some name =>
          match parseNodes fuel rest' with
          | .error e => .error e
          | .ok ns => .ok (.text t :: .field name :: ns)

/-- The replacement `html/template` makes for one character of a plain
string that is substituted into HTML text. -/
def escapeChar (c : Char) : Bytes :=
  if c = '&' then "&amp;".toList
  else if c = '<' then "&lt;".toList
  else if c = '>' then "&gt;".toList
  else if c = '"' then "&#34;".toList
  else if c = Char.ofNat 39 then "&#39;".toList
  else if c = '+' then "&#43;".toList
  else if c = Char.ofNat 0 then [Char.ofNat 65533]
  else [c]

/-- HTML escaping of a plain string. -/
def htmlEscape (s : Bytes) : Bytes :=
  s.flatMap escapeChar

/-- Executes one node on the data: text is emitted as written, `.Title` (a
plain string) is escaped, `.Body` (of type `template.HTML`) is emitted as it
is, and any other field cannot be evaluated on a `content`. -/
def execNode (c : content) : Node → Except Err Bytes
  | .text s => .ok s
  | .field name =>
    if name = "Title".toList then .ok (htmlEscape c.Title.toList)
    else if name = "Body".toList then .ok c.Body
    else .error ("template: can't evaluate field " ++ String.mk name ++ " in type main.content")

/-- Executes the nodes in order and concatenates what they emit. -/
def execNodes (c : content) : List Node → Except Err Bytes
  | [] => .ok []
  | n :: ns =>
    match execNode c n with
    | .error e => .error e
    | .ok a =>
      match execNodes c ns with
      | .error e => .error e
      | .ok b => .ok (a ++ b)

/-- Modelled from the spec: the engine of `html/template`, which is a library
and not in the source. A template is text with substitution points; parsing
fails when the text is not a valid template; executing replaces each
substitution point by the field of the content record it names and fails when
it cannot be bound. -/
def goTemplate (text : Bytes) : Except Err Template :=
  match parseNodes (text.length + 1) text with
  | .error e => .error e
  | .ok ns => .ok (fun c => execNodes c ns)

/-- The libraries with the template engine fixed to `goTemplate`; the
Markdown parser and the sanitizer stay parameters. -/
def goLibs (markdown sanitize : Bytes → Bytes) : Libs :=
  { markdown := markdown, sanitize := sanitize, parseTemplate := goTemplate }

/-! ## The parts of the default skeleton -/

/-- The default skeleton up to the substitution point of the title. -/
def skeletonHead : Bytes :=
  "<!DOCTYPE html>\n<html>\n  <head>\n    <meta http-equiv=\"content-type\" content=\"text/html; charset=utf-8\">\n    <title>".toList

/-- The default skeleton between its two substitution points. -/
def skeletonMiddle : Bytes :=
  "</title>\n  </head>\n  <body>\n".toList

/-- The default skeleton after the substitution point of the body. -/
def skeletonTail : Bytes :=
  "\n  </body>\n</html>\n".toList

/-- The title `parseContent` puts in the content record. -/
def pageTitle : Bytes :=
  "Markdown Preview Tool".toList

/-- A Markdown converter for the examples: the input as one paragraph. -/
def paragraph (input : Bytes) : Bytes :=
  "<p>".toList ++ input ++ "</p>\n".toList

/-- A sanitizer for the examples: where a left angle bracket is followed by
the letter `s` it writes the bracket as an entity, so that no `script` tag
(nor any other tag whose name starts with `s`) gets through. -/
def dropScripts : Bytes → Bytes
  | [] => []
  | c :: rest =>
    if c = '<' ∧ rest.head? = some 's' then "&lt;".toList ++ dropScripts rest
    else c :: dropScripts rest

/-- The libraries of the examples. -/
def exampleLibs : Libs :=
  goLibs paragraph dropScripts

/-- A host with the given OS identifier on which no call of `os` fails, the
temporary directory is `/tmp` and every preview command is found in
`/usr/bin`. -/
def hostOn (goos : String) : Host :=
  { goos := goos
    readErr := fun _ => none
    tempDir := "/tmp"
    randoms := ["42", "43"]
    createErr := fun _ => none
    closeErr := fun _ => none
    writeFault := fun _ _ => none
    removeErr := fun _ => none
    lookPath := fun c => .ok ("/usr/bin/" ++ c)
    runErr := fun _ _ => none }

/-- A host like `hostOn "linux"` whose disk fills up while the HTML is
written: three bytes reach the file. -/
def fullDiskHost : Host :=
  { hostOn "linux" with
    writeFault := fun _ _ => some (.afterBytes 3 "write: no space left on device") }

/-- A world with one Markdown file, `in.md`, and two template files:
`plain.html` has no substitution point at all, `script.html` has a script
element before the body. Nothing was written or called yet. -/
def exampleWorld : World :=
  { fs := fun p =>
      if p = "in.md" then some "Hi there".toList
      else if p = "plain.html" then some "<h1>static</h1>\n".toList
      else if p = "script.html" then
        some "<script>alert(1)</script>\n\x7b\x7b .Body \x7d\x7d\n".toList
      else none
    out := []
    errOut := []
    trace := [] }

/-- The world of the examples with three more template files: `page.html`
has the body on a line of its own inside an `article` element, `bad.html`
opens an action and never closes it, `typo.html` refers to a field that the
content record does not have. -/
def templatesWorld : World :=
  { exampleWorld with
    fs := fun p =>
      if p = "page.html" then some "<article>\n\x7b\x7b .Body \x7d\x7d\n</article>\n".toList
      else if p = "bad.html" then some "<h1>\x7b\x7b .Body</h1>\n".toList
      else if p = "typo.html" then some "<title>\x7b\x7b .Titel \x7d\x7d</title>\n".toList
      else exampleWorld.fs p }

/-- The page the examples render from `in.md` with the default template. -/
def exampleHtml : Bytes :=
  "<!DOCTYPE html>\n<html>\n  <head>\n    <meta http-equiv=\"content-type\" content=\"text/html; charset=utf-8\">\n    <title>Markdown Preview Tool</title>\n  </head>\n  <body>\n<p>Hi there</p>\n\n  </body>\n</html>\n".toList

/-- The path of the temporary file in the examples. -/
def exampleTemp : String :=
  "/tmp/markdown_preview42.html"

/-! ## Lemmas on the calls of `os` and on `parseContent` -/

set_option maxRecDepth 100000

theorem readFile_world (H : Host) (w : World) (p : String) :
    (readFile H w p).2 = w.log (.readFile p) := by
  unfold readFile
  cases w.fs p with
  | none => rfl
  | some d => cases H.readErr p <;> rfl

theorem readFile_ok (H : Host) (w : World) (p : String) (d : Bytes)
    (hf : w.fs p = some d) (hr : H.readErr p = none) :
    readFile H w p = (.ok d, w.log (.readFile p)) := by
  simp [readFile, hf, hr]

theorem readFile_missing (H : Host) (w : World) (p : String) (hf : w.fs p = none) :
    readFile H w p =
      (.error ("open " ++ p ++ ": no such file or directory"), w.log (.readFile p)) := by
  simp [readFile, hf]

theorem readFile_ok_inv (H : Host) (w w1 : World) (p : String) (d : Bytes)
    (h : readFile H w p = (.ok d, w1)) :
    w.fs p = some d ∧ H.readErr p = none ∧ w1 = w.log (.readFile p) := by
  unfold readFile at h
  cases hf : w.fs p with
  | none => simp [hf] at h
  | some d' =>
    cases hr : H.readErr p with
    | some e => simp [hf, hr] at h
    | none =>
      simp [hf, hr] at h
      exact ⟨by rw [h.1], rfl, h.2.symm⟩

/-- The world after `parseContent` is the world before it, with at most one
more read in the trace: the read of the alternate template. -/
theorem parseContent_world (L : Libs) (H : Host) (w : World) (input : Bytes) (tFname : String) :
    (parseContent L H w input tFname).2 = w ∨
      (tFname ≠ "" ∧ (parseContent L H w input tFname).2 = w.log (.readFile tFname)) := by
  unfold parseContent
  cases L.parseTemplate defaultTemplate with
  | error e => exact Or.inl rfl
  | ok t0 =>
    by_cases ht : tFname = ""
    · left
      simp only [ht, ne_eq, not_true_eq_false, if_false]
      cases t0 _ <;> rfl
    · right
      refine ⟨ht, ?_⟩
      simp only [ne_eq, ht, not_false_eq_true, if_true, parseFiles]
      have hw := readFile_world H w tFname
      cases hrf : readFile H w tFname with
      | mk r w1 =>
        rw [hrf] at hw
        simp only at hw
        subst hw
        cases r with
        | error e => rfl
        | ok text =>
          simp only
          cases L.parseTemplate text with
          | error e => rfl
          | ok t => simp only; cases t _ <;> rfl

/-- When `parseContent` succeeds, the trace has grown by exactly the read of
the alternate template, if one was named. -/
theorem parseContent_ok_world (L : Libs) (H : Host) (w w2 : World) (input html : Bytes)
    (tFname : String) (h : parseContent L H w input tFname = (.ok html, w2)) :
    w2 = if tFname ≠ "" then w.log (.readFile tFname) else w := by
  have hw := parseContent_world L H w input tFname
  rw [h] at hw
  simp only at hw
  by_cases ht : tFname = ""
  · rcases hw with hw | ⟨hne, _⟩
    · simp [ht, hw]
    · exact absurd ht hne
  · simp only [ne_eq, ht, not_false_eq_true, if_true]
    rcases hw with hw | ⟨_, hw⟩
    · exfalso
      unfold parseContent at h
      cases hd : L.parseTemplate defaultTemplate with
      | error e => simp [hd] at h
      | ok t0 =>
        simp only [hd, ne_eq, ht, not_false_eq_true, if_true, parseFiles] at h
        have hrw := readFile_world H w tFname
        cases hrf : readFile H w tFname with
        | mk r w1 =>
          rw [hrf] at hrw h
          simp only at hrw
          subst hrw
          cases r with
          | error e => simp at h
          | ok text =>
            simp only at h
            cases hp : L.parseTemplate text with
            | error e => simp [hp] at h
            | ok t =>
              simp only [hp] at h
              cases hx : t { Title := "Markdown Preview Tool", Body := L.sanitize (L.markdown input) } with
              | error e => simp [hx] at h
              | ok b =>
                simp only [hx, Prod.mk.injEq] at h
                have h2 := h.2
                rw [hw] at h2
                have := congrArg World.trace h2
                simp [World.log] at this
    · exact hw

/-! ## The previewer -/

/-- C6: the command `preview` runs on a path `p`. On linux it looks up
`xdg-open` and runs it with the arguments `[p]`; on windows `cmd.exe` with
`["/C", "start", p]`; on darwin `open` with `[p]`; after the command it waits
two seconds. On any other OS identifier it returns the error
"OS not supported" and leaves the world as it was: nothing is looked up,
nothing is run and there is no wait. -/
theorem preview_dispatch (H : Host) (w : World) (p : String) :
    (H.goos = "linux" →
      preview H w p =
        match H.lookPath "xdg-open" with
        | .error e => (some e, { w with trace := w.trace ++ [.lookPath "xdg-open"] })
        | .ok c =>
          (H.runErr c [p],
            { w with
              trace := w.trace ++ [.lookPath "xdg-open", .command c [p], .sleep 2] })) ∧
    (H.goos = "windows" →
      preview H w p =
        match H.lookPath "cmd.exe" with
        | .error e => (some e, { w with trace := w.trace ++ [.lookPath "cmd.exe"] })
        | .ok c =>
          (H.runErr c ["/C", "start", p],
            { w with
              trace :=
                w.trace ++ [.lookPath "cmd.exe", .command c ["/C", "start", p], .sleep 2] })) ∧
    (H.goos = "darwin" →
      preview H w p =
        match H.lookPath "open" with
        | .error e => (some e, { w with trace := w.trace ++ [.lookPath "open"] })
        | .ok c =>
          (H.runErr c [p],
            { w with trace := w.trace ++ [.lookPath "open", .command c [p], .sleep 2] })) ∧
    (H.goos ≠ "linux" → H.goos ≠ "windows" → H.goos ≠ "darwin" →
      preview H w p = (some "OS not supported", w)) := by
  refine ⟨?_, ?_, ?_, ?_⟩
  · intro h
    simp only [preview, h, if_true]
    cases H.lookPath "xdg-open" <;> simp [World.log]
  · intro h
    have h1 : ¬ ("windows" = "linux") := by decide
    simp only [preview, h, h1, if_true, if_false]
    cases H.lookPath "cmd.exe" <;> simp [World.log]
  · intro h
    have h1 : ¬ ("darwin" = "linux") := by decide
    have h2 : ¬ ("darwin" = "windows") := by decide
    simp only [preview, h, h1, h2, if_true, if_false]
    cases H.lookPath "open" <;> simp [World.log]
  · intro h1 h2 h3
    simp only [preview, h1, h2, h3, if_false]

/-- C6, on concrete hosts: on linux the trace shows the lookup of `xdg-open`,
the command with the path as its only argument and the wait; on an OS called
`plan9` the error is returned and the world is untouched. -/
theorem preview_dispatch_witness :
    preview (hostOn "linux") exampleWorld exampleTemp =
        (none,
          { exampleWorld with
            trace :=
              [.lookPath "xdg-open", .command "/usr/bin/xdg-open" [exampleTemp], .sleep 2] }) ∧
      preview (hostOn "plan9") exampleWorld exampleTemp =
        (some "OS not supported", exampleWorld) :=
  ⟨(preview_dispatch (hostOn "linux") exampleWorld exampleTemp).1 rfl,
    (preview_dispatch (hostOn "plan9") exampleWorld exampleTemp).2.2.2
      (by decide) (by decide) (by decide)⟩

/-! ## The exit code -/

/-- C9: the exit code of `main`. It is 1 exactly when the value of `--file`
is empty or `run` returns an error, and 0 otherwise. When the value of
`--file` is empty, `run` is not called: the world after `main` is the world
before it with the usage message as the only new event, so no file was read
and no temporary file was created. -/
theorem main_exit_code (L : Libs) (H : Host) (w : World) (filename : String)
    (skipPreview : Bool) (tFname : String) :
    ((main L H w filename skipPreview tFname).1 = 1 ↔
        (filename = "" ∨ (run L H w filename tFname skipPreview).1 ≠ none)) ∧
      ((main L H w filename skipPreview tFname).1 = 0 ↔
        ¬ (filename = "" ∨ (run L H w filename tFname skipPreview).1 ≠ none)) ∧
      (filename = "" →
        (main L H w filename skipPreview tFname).2 = { w with trace := w.trace ++ [.usage] }) := by
  unfold main
  by_cases hf : filename = ""
  · simp [hf, World.log]
  · simp only [hf, if_false, false_or, false_implies, and_true]
    cases hr : run L H w filename tFname skipPreview with
    | mk r w1 =>
      cases r with
      | none => simp
      | some e => simp

/-- C9, on concrete flag values: without `--file` the exit code is 1 and only
the usage message happened; with `--file in.md -s` the exit code is 0. -/
theorem main_exit_code_witness :
    (main exampleLibs (hostOn "linux") exampleWorld "" false "").1 = 1 ∧
      (main exampleLibs (hostOn "linux") exampleWorld "" false "").2 =
        { exampleWorld with trace := [.usage] } :=
  ⟨(main_exit_code exampleLibs (hostOn "linux") exampleWorld "" false "").1.2 (Or.inl rfl),
    (main_exit_code exampleLibs (hostOn "linux") exampleWorld "" false "").2.2 rfl⟩

/-! ## Determinism of the content pipeline -/

/-- C8: the result of `parseContent` depends on the world only through the
contents of the alternate template file. Two calls with the same input and
the same template name, in two worlds that hold the same contents (or both
nothing) under that name, return the same result: the same error, or the same
bytes. The libraries are functions here, so they are taken to be
deterministic. -/
theorem parseContent_deterministic (L : Libs) (H : Host) (w1 w2 : World) (input : Bytes)
    (tFname : String) (h : tFname ≠ "" → w1.fs tFname = w2.fs tFname) :
    (parseContent L H w1 input tFname).1 = (parseContent L H w2 input tFname).1 := by
  unfold parseContent
  cases L.parseTemplate defaultTemplate with
  | error e => rfl
  | ok t0 =>
    by_cases ht : tFname = ""
    · simp only [ht, ne_eq, not_true_eq_false, if_false]
      cases t0 _ <;> rfl
    · have hfs := h ht
      simp only [ne_eq, ht, not_false_eq_true, if_true, parseFiles, readFile, hfs]
      cases w2.fs tFname with
      | none => rfl
      | some text =>
        simp only
        cases H.readErr tFname with
        | some e => rfl
        | none =>
          simp only
          cases L.parseTemplate text with
          | error e => rfl
          | ok t => simp only; cases t _ <;> rfl

/-- C8, on two concrete worlds that differ in what was already written to
the output but hold the same template file. -/
theorem parseContent_deterministic_witness :
    (parseContent exampleLibs (hostOn "linux") exampleWorld "Hi there".toList "plain.html").1 =
      (parseContent exampleLibs (hostOn "linux")
        { exampleWorld with out := "earlier\n".toList, trace := [.usage] }
        "Hi there".toList "plain.html").1 :=
  parseContent_deterministic exampleLibs (hostOn "linux") exampleWorld
    { exampleWorld with out := "earlier\n".toList, trace := [.usage] }
    "Hi there".toList "plain.html" (fun _ => rfl)

/-! ## A missing alternate template -/

/-- C3: when the input file is readable and the alternate template path is
not empty and names no file, `run` returns an error for either value of
`skipPreview`, the files are the same as before the call, nothing was written
to the output writer, and the only calls made were reads (of the input and,
at most, the attempt on the template): no temporary file was created. -/
theorem run_template_missing (L : Libs) (H : Host) (w : World) (filename tFname : String)
    (skipPreview : Bool) (input : Bytes)
    (hin : w.fs filename = some input) (hrd : H.readErr filename = none)
    (ht : tFname ≠ "") (hmiss : w.fs tFname = none) :
    (run L H w filename tFname skipPreview).1 ≠ none ∧
      (run L H w filename tFname skipPreview).2.fs = w.fs ∧
      (run L H w filename tFname skipPreview).2.out = w.out ∧
      ((run L H w filename tFname skipPreview).2.trace = w.trace ++ [.readFile filename] ∨
        (run L H w filename tFname skipPreview).2.trace =
          w.trace ++ [.readFile filename, .readFile tFname]) := by
  unfold run
  rw [readFile_ok H w filename input hin hrd]
  simp only
  unfold parseContent
  cases L.parseTemplate defaultTemplate with
  | error e => simp [World.log]
  | ok t0 =>
    have hm : (w.log (.readFile filename)).fs tFname = none := hmiss
    simp only [ne_eq, ht, not_false_eq_true, if_true, parseFiles,
      readFile_missing H (w.log (.readFile filename)) tFname hm]
    simp [World.log]

/-- C3, on a concrete world: `-t nowhere.html` names no file. -/
theorem run_template_missing_witness :
    (run exampleLibs (hostOn "linux") exampleWorld "in.md" "nowhere.html" false).1 ≠ none ∧
      (run exampleLibs (hostOn "linux") exampleWorld "in.md" "nowhere.html" false).2.fs =
        exampleWorld.fs ∧
      (run exampleLibs (hostOn "linux") exampleWorld "in.md" "nowhere.html" false).2.out =
        exampleWorld.out ∧
      ((run exampleLibs (hostOn "linux") exampleWorld "in.md" "nowhere.html" false).2.trace =
          exampleWorld.trace ++ [.readFile "in.md"] ∨
        (run exampleLibs (hostOn "linux") exampleWorld "in.md" "nowhere.html" false).2.trace =
          exampleWorld.trace ++ [.readFile "in.md", .readFile "nowhere.html"]) :=
  run_template_missing exampleLibs (hostOn "linux") exampleWorld "in.md" "nowhere.html" false
    "Hi there".toList (by decide) rfl (by decide) (by decide)

/-! ## The temporary file -/

theorem createTempLoop_fresh (H : Host) (w : World) (rs : List String) (name : String)
    (h : createTempLoop H w rs = .ok name) : w.fs name = none := by
  induction rs with
  | nil => simp [createTempLoop] at h
  | cons r rs ih =>
    unfold createTempLoop at h
    cases hf : w.fs (tempName H r) with
    | some d =>
      rw [hf] at h
      exact ih h
    | none =>
      rw [hf] at h
      simp only at h
      cases hc : H.createErr (tempName H r) with
      | some e => rw [hc] at h; simp at h
      | none =>
        rw [hc] at h
        simp only [Except.ok.injEq] at h
        rw [← h]
        exact hf

/-- A successful `os.CreateTemp` returns a path that did not exist, creates
it empty, and changes nothing else. -/
theorem createTemp_ok_inv (H : Host) (w w3 : World) (name : String)
    (h : createTemp H w = (.ok name, w3)) :
    w.fs name = none ∧
      w3 = { w with
        fs := fun q => if q = name then some [] else w.fs q
        trace := w.trace ++ [.createTemp name] } := by
  unfold createTemp at h
  cases hl : createTempLoop H w (H.randoms.take 10000) with
  | error e => rw [hl] at h; simp at h
  | ok n =>
    rw [hl] at h
    simp only [Prod.mk.injEq, Except.ok.injEq] at h
    obtain ⟨hn, hw⟩ := h
    subst hn
    exact ⟨createTempLoop_fresh H w _ n hl, hw.symm⟩

/-- The function `run` after its first four steps succeeded: what is left is
the write of the path to `out`, `saveHTML`, and then, unless the preview is
skipped, `preview` followed by the deferred `os.Remove`. -/
theorem run_after_create (L : Libs) (H : Host) (w w2 w3 : World) (filename tFname : String)
    (skipPreview : Bool) (input html : Bytes) (name : String)
    (hin : w.fs filename = some input) (hrd : H.readErr filename = none)
    (hparse : parseContent L H (w.log (.readFile filename)) input tFname = (.ok html, w2))
    (hcreate : createTemp H w2 = (.ok name, w3)) (hclose : H.closeErr name = none) :
    run L H w filename tFname skipPreview =
      match saveHTML H (fprintln (w3.log (.closeFile name)) name) name html with
      | (some e, w6) => (some e, w6)
      | (none, w6) =>
        if skipPreview then (none, w6)
        else ((preview H w6 name).1, (remove H (preview H w6 name).2 name).2) := by
  unfold run
  rw [readFile_ok H w filename input hin hrd]
  simp only [hparse, hcreate, closeFile, hclose]

/-- If `run` with the preview skipped returns no error, each of its steps
succeeded. -/
theorem run_skip_inv (L : Libs) (H : Host) (w w' : World) (filename tFname : String)
    (h : run L H w filename tFname true = (none, w')) :
    ∃ input html name w2 w3,
      w.fs filename = some input ∧ H.readErr filename = none ∧
      parseContent L H (w.log (.readFile filename)) input tFname = (.ok html, w2) ∧
      createTemp H w2 = (.ok name, w3) ∧ H.closeErr name = none ∧
      H.writeFault name html = none ∧
      w' = (saveHTML H (fprintln (w3.log (.closeFile name)) name) name html).2 := by
  unfold run at h
  cases hr : readFile H w filename with
  | mk r w1 =>
    rw [hr] at h
    cases r with
    | error e => simp at h
    | ok input =>
      obtain ⟨hin, hrd, hw1⟩ := readFile_ok_inv H w w1 filename input hr
      subst hw1
      simp only at h
      cases hp : parseContent L H (w.log (.readFile filename)) input tFname with
      | mk r2 w2 =>
        rw [hp] at h
        cases r2 with
        | error e => simp at h
        | ok html =>
          simp only at h
          cases hc : createTemp H w2 with
          | mk r3 w3 =>
            rw [hc] at h
            cases r3 with
            | error e => simp at h
            | ok name =>
              simp only [closeFile] at h
              cases hcl : H.closeErr name with
              | some e => rw [hcl] at h; simp at h
              | none =>
                rw [hcl] at h
                simp only at h
                refine ⟨input, html, name, w2, w3, hin, hrd, hp, hc, hcl, ?_, ?_⟩
                · cases hwf : H.writeFault name html with
                  | none => rfl
                  | some f =>
                    exfalso
                    cases f <;> simp [saveHTML, writeFile, hwf] at h
                · cases hs : saveHTML H (fprintln (w3.log (.closeFile name)) name) name html with
                  | mk r6 w6 =>
                    rw [hs] at h
                    cases r6 with
                    | some e => simp at h
                    | none =>
                      simp only [if_true, Prod.mk.injEq, true_and] at h
                      exact h.symm

/-- C2: when `run` with `skipPreview = true` returns no error, the path it
printed names a file that exists after the call and holds exactly the bytes
`parseContent` returned for the input and the template; the calls made were
the reads, the creation and closing of the temporary file and the write of
the HTML, in this order: no command was looked up or run, and nothing was
removed. -/
theorem run_skip_preview (L : Libs) (H : Host) (w w' : World) (filename tFname : String)
    (h : run L H w filename tFname true = (none, w')) :
    ∃ input html name,
      w.fs filename = some input ∧
      (parseContent L H (w.log (.readFile filename)) input tFname).1 = .ok html ∧
      w'.out = w.out ++ name.toList ++ ['\n'] ∧
      w'.fs name = some html ∧
      w'.trace =
        w.trace ++ [.readFile filename] ++ (if tFname ≠ "" then [.readFile tFname] else []) ++
          [.createTemp name, .closeFile name, .writeFile name html] := by
  obtain ⟨input, html, name, w2, w3, hin, _, hp, hc, _, hwf, hw'⟩ :=
    run_skip_inv L H w w' filename tFname h
  have hw2 := parseContent_ok_world L H _ w2 input html tFname hp
  obtain ⟨_, hw3⟩ := createTemp_ok_inv H w2 w3 name hc
  refine ⟨input, html, name, hin, by rw [hp], ?_, ?_, ?_⟩
  · subst hw' hw3 hw2
    simp only [saveHTML, writeFile, hwf, fprintln, World.log]
    split <;> rfl
  · subst hw'
    simp [saveHTML, writeFile, hwf]
  · subst hw' hw3 hw2
    simp only [saveHTML, writeFile, hwf, fprintln, World.log]
    split <;> simp

/-- C2, on a concrete run: `-file in.md -s` on linux. -/
theorem run_skip_preview_witness :
    ∃ input html name,
      exampleWorld.fs "in.md" = some input ∧
      (parseContent exampleLibs (hostOn "linux") (exampleWorld.log (.readFile "in.md"))
        input "").1 = .ok html ∧
      (run exampleLibs (hostOn "linux") exampleWorld "in.md" "" true).2.out =
        exampleWorld.out ++ name.toList ++ ['\n'] ∧
      (run exampleLibs (hostOn "linux") exampleWorld "in.md" "" true).2.fs name = some html ∧
      (run exampleLibs (hostOn "linux") exampleWorld "in.md" "" true).2.trace =
        exampleWorld.trace ++ [.readFile "in.md"] ++ (if "" ≠ "" then [.readFile ""] else []) ++
          [.createTemp name, .closeFile name, .writeFile name html] :=
  run_skip_preview exampleLibs (hostOn "linux") exampleWorld
    (run exampleLibs (hostOn "linux") exampleWorld "in.md" "" true).2 "in.md" "" rfl

/-! ## An unsupported operating system -/

theorem preview_unsupported (H : Host) (w : World) (p : String)
    (h1 : H.goos ≠ "linux") (h2 : H.goos ≠ "windows") (h3 : H.goos ≠ "darwin") :
    preview H w p = (some "OS not supported", w) := by
  simp only [preview, h1, h2, h3, if_false]

/-- C1, as stated, fails: on an OS called `plan9`, for an input that is
rendered and saved (the run with the preview skipped returns no error and
leaves the temporary file in place), the run with `skipPreview = false`
returns "OS not supported" after printing the path, and the temporary file
does not exist when it returns: the deferred `os.Remove` has run. -/
theorem run_unsupported_os_file_gone :
    (run exampleLibs (hostOn "plan9") exampleWorld "in.md" "" true).1 = none ∧
      ((run exampleLibs (hostOn "plan9") exampleWorld "in.md" "" true).2.fs
        exampleTemp).isSome = true ∧
      (run exampleLibs (hostOn "plan9") exampleWorld "in.md" "" false).1 =
        some "OS not supported" ∧
      (run exampleLibs (hostOn "plan9") exampleWorld "in.md" "" false).2.out =
        exampleTemp.toList ++ ['\n'] ∧
      (run exampleLibs (hostOn "plan9") exampleWorld "in.md" "" false).2.fs exampleTemp = none ∧
      (run exampleLibs (hostOn "plan9") exampleWorld "in.md" "" false).2.trace.getLast? =
        some (.remove exampleTemp) := by
  refine ⟨?_, ?_, ?_, ?_, ?_, ?_⟩ <;> rfl

/-- C1, amended: on a host whose OS identifier is none of linux, windows,
darwin, for every input file and template for which rendering and saving
succeed (the run with the preview skipped returns no error and ends in the
world `w1`), `run` with `skipPreview = false` returns the error
"OS not supported"; the deferred `os.Remove` of the temporary file is the one
call made after the save, and unless that removal fails the file no longer
exists when `run` returns. -/
theorem run_unsupported_os (L : Libs) (H : Host) (w w1 : World) (filename tFname : String)
    (h1 : H.goos ≠ "linux") (h2 : H.goos ≠ "windows") (h3 : H.goos ≠ "darwin")
    (h : run L H w filename tFname true = (none, w1)) :
    ∃ name html,
      w1.out = w.out ++ name.toList ++ ['\n'] ∧
      w1.fs name = some html ∧
      (run L H w filename tFname false).1 = some "OS not supported" ∧
      (run L H w filename tFname false).2.out = w1.out ∧
      (run L H w filename tFname false).2.trace = w1.trace ++ [.remove name] ∧
      (H.removeErr name = none → (run L H w filename tFname false).2.fs name = none) := by
  obtain ⟨input, html, name, w2, w3, hin, hrd, hp, hc, hcl, hwf, hw'⟩ :=
    run_skip_inv L H w w1 filename tFname h
  have hw2 := parseContent_ok_world L H _ w2 input html tFname hp
  obtain ⟨_, hw3⟩ := createTemp_ok_inv H w2 w3 name hc
  have hrun := run_after_create L H w w2 w3 filename tFname false input html name
    hin hrd hp hc hcl
  have hsave : saveHTML H (fprintln (w3.log (.closeFile name)) name) name html = (none, w1) := by
    rw [hw']
    simp [saveHTML, writeFile, hwf]
  rw [hsave] at hrun
  simp only [preview_unsupported H w1 name h1 h2 h3, Bool.false_eq_true, if_false] at hrun
  have hfs : w1.fs name = some html := by
    rw [hw']
    simp [saveHTML, writeFile, hwf]
  refine ⟨name, html, ?_, hfs, ?_, ?_, ?_, ?_⟩
  · subst hw' hw3 hw2
    simp only [saveHTML, writeFile, hwf, fprintln, World.log]
    split <;> rfl
  · rw [hrun]
  · rw [hrun]
    simp only [remove]
    cases H.removeErr name with
    | some e => rfl
    | none => simp only [hfs]; rfl
  · rw [hrun]
    simp only [remove]
    cases H.removeErr name with
    | some e => rfl
    | none => simp only [hfs]; rfl
  · intro hre
    rw [hrun]
    simp [remove, hre, hfs]

/-- C1, amended, on a concrete run: `-file in.md` on an OS called `plan9`. -/
theorem run_unsupported_os_witness :
    ∃ name html,
      (run exampleLibs (hostOn "plan9") exampleWorld "in.md" "" true).2.out =
        exampleWorld.out ++ name.toList ++ ['\n'] ∧
      (run exampleLibs (hostOn "plan9") exampleWorld "in.md" "" true).2.fs name = some html ∧
      (run exampleLibs (hostOn "plan9") exampleWorld "in.md" "" false).1 =
        some "OS not supported" ∧
      (run exampleLibs (hostOn "plan9") exampleWorld "in.md" "" false).2.out =
        (run exampleLibs (hostOn "plan9") exampleWorld "in.md" "" true).2.out ∧
      (run exampleLibs (hostOn "plan9") exampleWorld "in.md" "" false).2.trace =
        (run exampleLibs (hostOn "plan9") exampleWorld "in.md" "" true).2.trace ++
          [.remove name] ∧
      ((hostOn "plan9").removeErr name = none →
        (run exampleLibs (hostOn "plan9") exampleWorld "in.md" "" false).2.fs name = none) :=
  run_unsupported_os exampleLibs (hostOn "plan9") exampleWorld
    (run exampleLibs (hostOn "plan9") exampleWorld "in.md" "" true).2 "in.md" ""
    (by decide) (by decide) (by decide) rfl

/-! ## A failing save -/

/-- C10, as stated, fails in one detail: when the disk fills up while the
HTML is written, `run` returns the error of the write after it printed the
path, and the temporary file is still there, but it is not empty: it holds
the bytes that were written before the failure. -/
theorem run_save_fails_file_not_empty :
    (run exampleLibs fullDiskHost exampleWorld "in.md" "" true).1 =
        some "write: no space left on device" ∧
      (run exampleLibs fullDiskHost exampleWorld "in.md" "" true).2.out =
        exampleTemp.toList ++ ['\n'] ∧
      (run exampleLibs fullDiskHost exampleWorld "in.md" "" true).2.fs exampleTemp =
        some ['<', '!', 'D'] ∧
      (run exampleLibs fullDiskHost exampleWorld "in.md" "" true).2.fs exampleTemp ≠ some [] := by
  refine ⟨?_, ?_, ?_, ?_⟩
  · rfl
  · rfl
  · rfl
  · have h : (run exampleLibs fullDiskHost exampleWorld "in.md" "" true).2.fs exampleTemp =
        some ['<', '!', 'D'] := rfl
    rw [h]
    decide

/-- C10, amended: `run` writes the path of the temporary file to the output
writer before it writes the HTML to that file. For every input for which
reading, rendering, the creation of the temporary file and its closing
succeed but `saveHTML` fails, `run` returns the error of the write, the
output writer has received the path followed by a newline, no removal was
called, and the temporary file is still there: empty when the write failed
at the opening of the file, and otherwise holding the first `n` bytes of the
HTML, those that reached it. -/
theorem run_save_fails (L : Libs) (H : Host) (w w2 w3 : World) (filename tFname : String)
    (skipPreview : Bool) (input html : Bytes) (name : String) (fault : WriteFault)
    (hin : w.fs filename = some input) (hrd : H.readErr filename = none)
    (hparse : parseContent L H (w.log (.readFile filename)) input tFname = (.ok html, w2))
    (hcreate : createTemp H w2 = (.ok name, w3)) (hclose : H.closeErr name = none)
    (hfault : H.writeFault name html = some fault) :
    (run L H w filename tFname skipPreview).1 =
        some (match fault with
          | .atOpen e => e
          | .afterBytes _ e => e) ∧
      (run L H w filename tFname skipPreview).2.out = w.out ++ name.toList ++ ['\n'] ∧
      (run L H w filename tFname skipPreview).2.fs name =
        some (match fault with
          | .atOpen _ => []
          | .afterBytes n _ => html.take n) ∧
      (run L H w filename tFname skipPreview).2.trace =
        w.trace ++ [.readFile filename] ++ (if tFname ≠ "" then [.readFile tFname] else []) ++
          [.createTemp name, .closeFile name, .writeFile name html] := by
  have hw2 := parseContent_ok_world L H _ w2 input html tFname hparse
  obtain ⟨_, hw3⟩ := createTemp_ok_inv H w2 w3 name hcreate
  rw [run_after_create L H w w2 w3 filename tFname skipPreview input html name
    hin hrd hparse hcreate hclose]
  subst hw3 hw2
  cases fault with
  | atOpen e =>
    simp only [saveHTML, writeFile, hfault, fprintln, World.log]
    refine ⟨?_, ?_, by simp, ?_⟩
    · trivial
    · split <;> rfl
    · split <;> simp
  | afterBytes n e =>
    simp only [saveHTML, writeFile, hfault, fprintln, World.log]
    refine ⟨?_, ?_, by simp, ?_⟩
    · trivial
    · split <;> rfl
    · split <;> simp

/-- C10, amended, on a concrete run: the disk fills up after three bytes. -/
theorem run_save_fails_witness :
    (run exampleLibs fullDiskHost exampleWorld "in.md" "" false).1 =
        some "write: no space left on device" ∧
      (run exampleLibs fullDiskHost exampleWorld "in.md" "" false).2.out =
        exampleWorld.out ++ exampleTemp.toList ++ ['\n'] ∧
      (run exampleLibs fullDiskHost exampleWorld "in.md" "" false).2.fs exampleTemp =
        some (exampleHtml.take 3) ∧
      (run exampleLibs fullDiskHost exampleWorld "in.md" "" false).2.trace =
        exampleWorld.trace ++ [.readFile "in.md"] ++ (if "" ≠ "" then [.readFile ""] else []) ++
          [.createTemp exampleTemp, .closeFile exampleTemp, .writeFile exampleTemp exampleHtml] :=
  run_save_fails exampleLibs fullDiskHost exampleWorld
    (exampleWorld.log (.readFile "in.md"))
    (createTemp fullDiskHost (exampleWorld.log (.readFile "in.md"))).2
    "in.md" "" false "Hi there".toList exampleHtml exampleTemp
    (.afterBytes 3 "write: no space left on device")
    (by decide) rfl rfl rfl rfl rfl

/-! ## The default template -/

theorem goTemplate_default :
    goTemplate defaultTemplate =
      .ok (fun c => execNodes c
        [.text skeletonHead, .field "Title".toList, .text skeletonMiddle,
          .field "Body".toList, .text skeletonTail]) := by
  rfl

theorem parseContent_goLibs_default (markdown sanitize : Bytes → Bytes) (H : Host) (w : World)
    (input : Bytes) :
    parseContent (goLibs markdown sanitize) H w input "" =
      (.ok (skeletonHead ++ pageTitle ++ skeletonMiddle ++ sanitize (markdown input) ++
        skeletonTail), w) := by
  have ht : htmlEscape "Markdown Preview Tool".toList = pageTitle := by rfl
  have hb : ¬ ("Body".toList = "Title".toList) := by decide
  simp only [parseContent, goLibs, goTemplate_default, ne_eq, not_true_eq_false, if_false,
    execNodes, execNode, if_true, hb, ht, List.append_nil, List.append_assoc]

/-- C5: with an empty template name `parseContent` returns no error, and its
output is the default skeleton with the substitution point of the title
replaced by "Markdown Preview Tool" and the substitution point of the body
replaced by `sanitize (markdown input)` as it is, with no escaping. The body
stands right after the line of the `<body>` marker and right before the line
of the `</body>` marker, and the skeleton declares `charset=utf-8`. The
template engine is `goTemplate`. -/
theorem parseContent_default (markdown sanitize : Bytes → Bytes) (H : Host) (w : World)
    (input : Bytes) :
    parseContent (goLibs markdown sanitize) H w input "" =
        (.ok (skeletonHead ++ pageTitle ++ skeletonMiddle ++ sanitize (markdown input) ++
          skeletonTail), w) ∧
      defaultTemplate =
        skeletonHead ++ "\x7b\x7b .Title \x7d\x7d".toList ++ skeletonMiddle ++
          "\x7b\x7b .Body \x7d\x7d".toList ++ skeletonTail ∧
      pageTitle = "Markdown Preview Tool".toList ∧
      "<body>\n".toList <:+ skeletonMiddle ∧
      "\n  </body>".toList <+: skeletonTail ∧
      "charset=utf-8".toList <:+: skeletonHead := by
  refine ⟨parseContent_goLibs_default markdown sanitize H w input, by rfl, rfl, ?_, ?_, ?_⟩
  · exact ⟨"</title>\n  </head>\n  ".toList, by rfl⟩
  · exact ⟨"\n</html>\n".toList, by rfl⟩
  · exact ⟨"<!DOCTYPE html>\n<html>\n  <head>\n    <meta http-equiv=\"content-type\" content=\"text/html; ".toList,
      "\">\n    <title>".toList, by rfl⟩

/-! ## Script tags in the output -/

/-- C7, as stated, fails: the template file `plain.html` refers neither to
`.Body` nor to the title (it does not contain a single brace), and
`parseContent` returns no error but a rendered page, the text of the
template. -/
theorem plain_template_renders :
    exampleWorld.fs "plain.html" = some "<h1>static</h1>\n".toList ∧
      '\x7b' ∉ "<h1>static</h1>\n".toList ∧
      (parseContent exampleLibs (hostOn "linux") exampleWorld "Hi there".toList
        "plain.html").1 = .ok "<h1>static</h1>\n".toList := by
  refine ⟨by rfl, by decide, by rfl⟩

/-- C7, amended: for every input and every alternate template file, if the
template does not parse, or if it parses and its execution on the content
record fails, then `parseContent` returns an error instead of a rendered
page; this holds whatever the template engine. (That a template has no
substitution point for the body and none for the title is no reason for an
error.) -/
theorem parseContent_template_invalid (L : Libs) (H : Host) (w : World) (input : Bytes)
    (tFname : String) (text : Bytes) (ht : tFname ≠ "") (hf : w.fs tFname = some text) :
    (∀ e, L.parseTemplate text = .error e →
        ∃ e', (parseContent L H w input tFname).1 = .error e') ∧
      (∀ t e, L.parseTemplate text = .ok t →
        t { Title := "Markdown Preview Tool", Body := L.sanitize (L.markdown input) } =
          .error e →
        ∃ e', (parseContent L H w input tFname).1 = .error e') := by
  constructor
  · intro e hp
    unfold parseContent
    cases L.parseTemplate defaultTemplate with
    | error e0 => exact ⟨e0, rfl⟩
    | ok t0 =>
      simp only [ne_eq, ht, not_false_eq_true, if_true, parseFiles, readFile, hf]
      cases H.readErr tFname with
      | some e1 => exact ⟨e1, rfl⟩
      | none => simp only [hp]; exact ⟨e, rfl⟩
  · intro t e hp hx
    unfold parseContent
    cases L.parseTemplate defaultTemplate with
    | error e0 => exact ⟨e0, rfl⟩
    | ok t0 =>
      simp only [ne_eq, ht, not_false_eq_true, if_true, parseFiles, readFile, hf]
      cases H.readErr tFname with
      | some e1 => exact ⟨e1, rfl⟩
      | none => simp only [hp, hx]; exact ⟨e, rfl⟩

/-- C7, amended, on concrete template files: `bad.html`, with an action that
is never closed, does not parse, and `typo.html`, which refers to a field
`Titel`, parses but cannot be executed; `parseContent` returns an error for
both. -/
theorem parseContent_template_invalid_witness :
    (∃ e', (parseContent exampleLibs (hostOn "linux") templatesWorld "Hi there".toList
        "bad.html").1 = .error e') ∧
      (∃ e', (parseContent exampleLibs (hostOn "linux") templatesWorld "Hi there".toList
        "typo.html").1 = .error e') :=
  ⟨(parseContent_template_invalid exampleLibs (hostOn "linux") templatesWorld
      "Hi there".toList "bad.html" "<h1>\x7b\x7b .Body</h1>\n".toList
      (by decide) (by rfl)).1 "template: unclosed action" (by rfl),
    (parseContent_template_invalid exampleLibs (hostOn "linux") templatesWorld
      "Hi there".toList "typo.html" "<title>\x7b\x7b .Titel \x7d\x7d</title>\n".toList
      (by decide) (by rfl)).2
      (fun c => execNodes c
        [.text "<title>".toList, .field "Titel".toList, .text "</title>\n".toList])
      "template: can't evaluate field Titel in type main.content" (by rfl) (by rfl)⟩

end Mdp
